import Mathlib

/-!
# Verification of the arc-cli connection-and-dispatch pipeline

Shallow embedding of `src/main.rs` of the `arc-cli` command-line client.
The program parses a command line (endpoint URI plus one of the
subcommands `connect <address>`, `disconnect <address>`, `getinfo`),
resolves addresses, opens one gRPC/HTTP2 connection and performs exactly
one RPC call, rendering the result.

External effects (DNS resolution via `ToSocketAddrs`, `http::Uri`
parsing, `Destination::try_from_uri`, the transport connection and the
three RPC calls) are modelled as oracles: their outcomes are explicit
data in `ParseEnv` / `Env`, and `main_run` is the embedding of `fn main`
as a function from those outcomes to the observable trace of the
process: the ordered list of pipeline events, the stdout lines, and the
exit outcome.  The `--completions` early-return path is outside the
modelled invocations (it conflicts with the `uri` argument and performs
no part of the pipeline).
-/

namespace ArcCli

/-- An IPv4 address, four octets in order. -/
structure IPv4 where
  a : Nat
  b : Nat
  c : Nat
  d : Nat
deriving DecidableEq, Repr

/-- Rust `Display` for `Ipv4Addr`: dotted decimal. -/
def IPv4.render (ip : IPv4) : String :=
  toString ip.a ++ "." ++ toString ip.b ++ "." ++ toString ip.c ++ "." ++ toString ip.d

/-- An IP address as carried by a resolved `SocketAddr`: V4 or V6.
The V6 payload is its 16-bit segments; its textual display (RFC 5952
zero compression) is not modelled because the dispatcher only ever
renders addresses that passed the `is_ipv4` filter. -/
inductive IpAddr where
  | v4 (ip : IPv4)
  | v6 (segs : List Nat)
deriving DecidableEq, Repr

/-- `IpAddr::is_ipv4`. -/
def IpAddr.is_ipv4 : IpAddr → Bool
  | .v4 _ => true
  | .v6 _ => false

/-- Rust `Display` for `IpAddr`; only reached on V4 values in this
program (see `IpAddr` doc). -/
def IpAddr.render : IpAddr → String
  | .v4 ip => ip.render
  | .v6 _ => ""

/-- `std::net::SocketAddr`: an IP address plus a 16-bit port. -/
structure SocketAddr where
  ip : IpAddr
  port : Nat
deriving DecidableEq, Repr

/-- `SocketAddr::is_ipv4`. -/
def SocketAddr.is_ipv4 (s : SocketAddr) : Bool := s.ip.is_ipv4

/-- Outcome of a computation that may panic (Rust `unwrap`). -/
inductive PanicOr (α : Type) where
  | panic (msg : String)
  | ok (val : α)
deriving DecidableEq, Repr

/-- `fn find_ipv4(s: &str) -> Option<SocketAddr>`:
`s.to_socket_addrs().unwrap().find(|s| s.is_ipv4())`.
The argument is the outcome of `to_socket_addrs` on the given string
(an error, or the list of results in the order the resolution service
returned them); the `unwrap` on an error is a panic. -/
def find_ipv4 (res : Except String (List SocketAddr)) : PanicOr (Option SocketAddr) :=
  match res with
  | .error e => .panic e
  | .ok addrs => .ok (addrs.find? SocketAddr.is_ipv4)

/-- `fn is_address(s: String) -> Result<(), String>`: clap validator for
the peer address; the argument is the outcome of `s.to_socket_addrs()`
at validation time. -/
def is_address (res : Except String (List SocketAddr)) : Except String Unit :=
  match res with
  | .error e => .error ("cannot parse address: " ++ e)
  | .ok addrs =>
    match addrs with
    | [] => .error "Could not resolve address"
    | _ :: _ => .ok ()

/-- `fn is_uri(s: String) -> Result<(), String>`: clap validator for the
endpoint URI; the argument is the outcome of `s.parse::<http::Uri>()`. -/
def is_uri (res : Except String Unit) : Except String Unit :=
  match res with
  | .ok _ => .ok ()
  | .error e => .error ("Invalid URI: " ++ e)

/-- Hex digits of `n`, most significant first, accumulated onto `acc`;
structural fuel (`n + 1` suffices since `n / 16 < n` for `n ≥ 16`).
Mirrors Rust `{:x}` formatting of an unsigned integer. -/
def hexCore : Nat → Nat → List Char → List Char
  | 0, _, acc => acc
  | fuel + 1, n, acc =>
    if n < 16 then Nat.digitChar n :: acc
    else hexCore fuel (n / 16) (Nat.digitChar (n % 16) :: acc)

/-- Rust `format!("{:x}", n)`: lowercase hex, at least one digit. -/
def hexStr (n : Nat) : String := ⟨hexCore (n + 1) n []⟩

/-- Rust `format!("{:02x}", n)`: lowercase hex zero-padded to width 2.
The hex representation has one digit exactly when `n < 16`. -/
def fmt02x (n : Nat) : String :=
  if n < 16 then "0" ++ hexStr n else hexStr n

/-- The hash-rendering expression of the `getinfo` branch:
`.iter().map(|b| format!("{:02x}", b)).fold(String::new(), |mut acc, hb| { acc.push_str(&hb); acc })`. -/
def renderHash (bs : List Nat) : String :=
  (bs.map fmt02x).foldl (fun acc hb => acc ++ hb) ""

/-- `GetInfoResponse` of the wire protocol: implementation name,
protocol version, and the two hashes as byte sequences. -/
structure GetInfoResponse where
  implementation : String
  protocol_version : Nat
  best_block_hash : List Nat
  genesis_block_hash : List Nat
deriving DecidableEq, Repr

/-- `node::Address` payload: dotted-decimal ip string and a port widened
to a 32-bit field. -/
structure Address where
  ip : String
  port : Nat
deriving DecidableEq, Repr

/-- `node::Peer` payload. -/
structure Peer where
  address : Option Address
deriving DecidableEq, Repr

/-- The peer payload built in the `connect`/`disconnect` branches:
`Address { ip: format!("{}", socket_addr.ip()), port: socket_addr.port() as u32 }`
wrapped in `Peer { address: Some(address) }`. -/
def peerOf (sa : SocketAddr) : Peer :=
  { address := some { ip := sa.ip.render, port := sa.port } }

/-- The stdout lines printed by the `getinfo` branch on success. -/
def renderInfoLines (resp : GetInfoResponse) : List String :=
  [ "Informations: ",
    "\tNode:",
    "\t\tImplementation: " ++ resp.implementation,
    "\t\tVersion: " ++ toString resp.protocol_version,
    "\tBlockchain: ",
    "\t\tBest Block Hash: " ++ renderHash resp.best_block_hash,
    "\t\tGenesis Hash: " ++ renderHash resp.genesis_block_hash ]

/-- Observable pipeline events, in the order they occur. -/
inductive Event where
  /-- The Transport Connector runs: `make_service(dst)` is driven. -/
  | connAttempt
  /-- A `ConnectPeer` RPC carrying the given peer is issued. -/
  | rpcConnectPeer (peer : Peer)
  /-- A `DisconnectPeer` RPC carrying the given peer is issued. -/
  | rpcDisconnectPeer (peer : Peer)
  /-- A `GetInfo` RPC is issued. -/
  | rpcGetInfo
  /-- The renderer receives the raw `GetInfoResponse` fields. -/
  | renderInfo (resp : GetInfoResponse)
  /-- A one-line message is printed on the error stream. -/
  | printErr (msg : String)
deriving DecidableEq, Repr

/-- How the process ends: a normal exit with a status code, or an abort
via a Rust panic. -/
inductive Outcome where
  | exited (code : Nat)
  | panicked (msg : String)
deriving DecidableEq, Repr

/-- The observable trace of one invocation. -/
structure Run where
  events : List Event
  stdout : List String
  outcome : Outcome
deriving DecidableEq, Repr

/-- Transport Connector failures: `make_service` error, or the client
`ready()` error; each is printed with its own prefix. -/
inductive ConnErr where
  | makeService (e : String)
  | clientReady (e : String)
deriving DecidableEq, Repr

/-- The error message printed for each `ConnErr`. -/
def ConnErr.render : ConnErr → String
  | .makeService e => "HTTP/2 connection failed: " ++ e
  | .clientReady e => "client closed: " ++ e

/-- The parsed subcommand (clap match arms of `main`). `nothing` is the
fall-through `_ => ()` arm: none of the three subcommands given. -/
inductive Cmd where
  | connect (addr : String)
  | disconnect (addr : String)
  | getinfo
  | nothing
deriving DecidableEq, Repr

/-- Oracle outcomes of the external calls made during argument parsing:
`http::Uri` parsing of the `uri` value, and `to_socket_addrs` on the
subcommand address at validation time. -/
structure ParseEnv where
  uriParse : Except String Unit
  resolveValidate : Except String (List SocketAddr)

/-- Oracle outcomes of the external calls made after parsing:
`to_socket_addrs` at dispatch time (`find_ipv4`), `Destination::try_from_uri`,
the transport connection, and the three RPC calls. -/
structure Env where
  resolveDispatch : Except String (List SocketAddr)
  dstResult : Except String Unit
  connResult : Except ConnErr Unit
  connectPeerResult : Except String Unit
  disconnectPeerResult : Except String Unit
  getInfoResult : Except String GetInfoResponse

/-- The body of `fn main` after `get_matches` succeeded (and without
`--completions`): build `dst`, then dispatch on the subcommand; each
branch that reaches `tokio::run` first attempts the transport
connection, then issues its single RPC. -/
def dispatch (env : Env) (uriStr : String) (cmd : Cmd) : Run :=
  match env.dstResult with
  | .error e =>
      { events := [.printErr ("Could not connect to " ++ uriStr ++ ": " ++ e)],
        stdout := [], outcome := .exited 0 }
  | .ok _ =>
    match cmd with
    | .connect _ =>
      match find_ipv4 env.resolveDispatch with
      | .panic msg => { events := [], stdout := [], outcome := .panicked msg }
      | .ok none =>
          { events := [.printErr "Could not resolve to ipv4"],
            stdout := [], outcome := .exited 0 }
      | .ok (some sa) =>
        match env.connResult with
        | .error ce =>
            { events := [.connAttempt, .printErr ce.render],
              stdout := [], outcome := .exited 0 }
        | .ok _ =>
          match env.connectPeerResult with
          | .ok _ =>
              { events := [.connAttempt, .rpcConnectPeer (peerOf sa)],
                stdout := [], outcome := .exited 0 }
          | .error e =>
              { events := [.connAttempt, .rpcConnectPeer (peerOf sa),
                           .printErr ("Could not connect to peer: " ++ e)],
                stdout := [], outcome := .exited 0 }
    | .disconnect _ =>
      match find_ipv4 env.resolveDispatch with
      | .panic msg => { events := [], stdout := [], outcome := .panicked msg }
      | .ok none =>
          { events := [.printErr "Could not resolve to ipv4"],
            stdout := [], outcome := .exited 0 }
      | .ok (some sa) =>
        match env.connResult with
        | .error ce =>
            { events := [.connAttempt, .printErr ce.render],
              stdout := [], outcome := .exited 0 }
        | .ok _ =>
          match env.disconnectPeerResult with
          | .ok _ =>
              { events := [.connAttempt, .rpcDisconnectPeer (peerOf sa)],
                stdout := [], outcome := .exited 0 }
          | .error e =>
              { events := [.connAttempt, .rpcDisconnectPeer (peerOf sa),
                           .printErr ("Could not connect to peer: " ++ e)],
                stdout := [], outcome := .exited 0 }
    | .getinfo =>
      match env.connResult with
      | .error ce =>
          { events := [.connAttempt, .printErr ce.render],
            stdout := [], outcome := .exited 0 }
      | .ok _ =>
        match env.getInfoResult with
        | .error e =>
            { events := [.connAttempt, .rpcGetInfo,
                         .printErr ("Error retrieving information: " ++ e)],
              stdout := [], outcome := .exited 0 }
        | .ok resp =>
            { events := [.connAttempt, .rpcGetInfo, .renderInfo resp],
              stdout := renderInfoLines resp, outcome := .exited 0 }
    | .nothing => { events := [], stdout := [], outcome := .exited 0 }

/-- The clap validators run by `get_matches` for the given parsed
command: `is_uri` on the `uri` value always; `is_address` on the
subcommand address for `connect`/`disconnect`. -/
def validateCmd (pe : ParseEnv) (cmd : Cmd) : Except String Unit :=
  match is_uri pe.uriParse with
  | .error e => .error e
  | .ok _ =>
    match cmd with
    | .connect _ => is_address pe.resolveValidate
    | .disconnect _ => is_address pe.resolveValidate
    | _ => .ok ()

/-- `fn main`: `get_matches` (a clap validation error prints its message
on stderr and exits with status 1), then `dispatch`.  A normal return
from `main` is exit status 0. -/
def main_run (pe : ParseEnv) (env : Env) (uriStr : String) (cmd : Cmd) : Run :=
  match validateCmd pe cmd with
  | .error e => { events := [.printErr e], stdout := [], outcome := .exited 1 }
  | .ok _ => dispatch env uriStr cmd

/-- Is this event a network-connection attempt? -/
def Event.isConn : Event → Bool
  | .connAttempt => true
  | _ => false

/-- Is this event an RPC call? -/
def Event.isRpc : Event → Bool
  | .rpcConnectPeer _ => true
  | .rpcDisconnectPeer _ => true
  | .rpcGetInfo => true
  | _ => false

/-- Is this event an error-stream message? -/
def Event.isErr : Event → Bool
  | .printErr _ => true
  | _ => false

/-- A run failed when it printed an error message or did not exit with
status 0. -/
def Run.failed (r : Run) : Bool :=
  r.events.any Event.isErr ||
    (match r.outcome with
     | .exited 0 => false
     | _ => true)

/-- Atomicity of a run: at most one connection attempt, at most one RPC
call, and a failed run renders nothing on stdout. -/
def Run.atomic (r : Run) : Bool :=
  decide (r.events.countP (fun e => e.isRpc) ≤ 1) &&
  decide (r.events.countP (fun e => e.isConn) ≤ 1) &&
  (!r.failed || r.stdout.isEmpty)

/-- The sixteen lowercase hexadecimal digit characters. -/
def hexAlphabet : List Char := "0123456789abcdef".toList

set_option maxRecDepth 8192 in
/-- On a byte value, `{:02x}` produces exactly the two lowercase hex
digits, high nibble first. -/
theorem fmt02x_byte : ∀ b < 256,
    fmt02x b = ⟨[Nat.digitChar (b / 16), Nat.digitChar (b % 16)]⟩ := by decide

/-- Hex digit characters of values below 16 lie in the lowercase hex
alphabet. -/
theorem digitChar_mem_hex : ∀ d < 16, Nat.digitChar d ∈ hexAlphabet := by decide

/-- The fold in the `getinfo` branch is string join. -/
theorem renderHash_join (bs : List Nat) :
    renderHash bs = String.join (bs.map fmt02x) := rfl

/-- Character-level form of `renderHash` on byte values. -/
theorem renderHash_data (bs : List Nat) (h : ∀ b ∈ bs, b < 256) :
    (renderHash bs).data =
      (bs.map (fun b => [Nat.digitChar (b / 16), Nat.digitChar (b % 16)])).flatten := by
  rw [renderHash_join, String.join_eq]
  show (List.map String.data (List.map fmt02x bs)).flatten = _
  rw [List.map_map]
  congr 1
  apply List.map_congr_left
  intro b hb
  simp only [Function.comp_apply]
  rw [fmt02x_byte b (h b hb)]

/-- A `find?` hit is the first element satisfying the predicate: the
list splits around it with every earlier element failing. -/
theorem find?_first {α : Type} (p : α → Bool) (l : List α) (a : α) :
    l.find? p = some a ↔
      ∃ l₁ l₂, l = l₁ ++ a :: l₂ ∧ p a = true ∧ ∀ x ∈ l₁, p x = false := by
  induction l with
  | nil => simp
  | cons y ys ih =>
    by_cases hy : p y = true
    · rw [List.find?_cons_of_pos _ hy]
      constructor
      · rintro h
        injection h with h
        exact ⟨[], ys, by simp [h], by rw [← h]; exact hy, by simp⟩
      · rintro ⟨l₁, l₂, hsplit, hpa, hfail⟩
        cases l₁ with
        | nil =>
          injection hsplit with h1 h2
          rw [h1]
        | cons z zs =>
          injection hsplit with h1 h2
          exact absurd hy (by rw [h1]; simp [hfail z (by simp)])
    · rw [List.find?_cons_of_neg _ hy]
      rw [ih]
      constructor
      · rintro ⟨l₁, l₂, hsplit, hpa, hfail⟩
        refine ⟨y :: l₁, l₂, by simp [hsplit], hpa, ?_⟩
        intro x hx
        rcases List.mem_cons.1 hx with rfl | hx
        · exact Bool.not_eq_true _ ▸ (by simpa using hy)
        · exact hfail x hx
      · rintro ⟨l₁, l₂, hsplit, hpa, hfail⟩
        cases l₁ with
        | nil =>
          injection hsplit with h1 h2
          exact absurd (h1 ▸ hpa) hy
        | cons z zs =>
          injection hsplit with h1 h2
          exact ⟨zs, l₂, h2, hpa, fun x hx => hfail x (by simp [hx])⟩

/-- Flattening a map whose pieces all have two elements doubles the
length. -/
theorem length_flatten_two {α β : Type} (f : α → List β)
    (hf : ∀ x, (f x).length = 2) (l : List α) :
    ((l.map f).flatten).length = 2 * l.length := by
  induction l with
  | nil => simp
  | cons y ys ih =>
    simp only [List.map_cons, List.flatten_cons, List.length_append, List.length_cons, hf, ih]
    omega

/-- C2: `find_ipv4` on a successful resolution returns the first IPv4
result in the order the resolution service returned the candidates
(everything before it is non-IPv4, nothing is reordered), and returns
none exactly when the resolution produced no IPv4 result (an empty
result list or only IPv6 results). -/
theorem find_ipv4_first_match (l : List SocketAddr) (a : SocketAddr) :
    (find_ipv4 (Except.ok l) = PanicOr.ok (some a) ↔
      ∃ l₁ l₂, l = l₁ ++ a :: l₂ ∧ a.is_ipv4 = true ∧ ∀ x ∈ l₁, x.is_ipv4 = false) ∧
    (find_ipv4 (Except.ok l) = PanicOr.ok none ↔ ∀ x ∈ l, x.is_ipv4 = false) := by
  constructor
  · simp only [find_ipv4, PanicOr.ok.injEq]
    exact find?_first SocketAddr.is_ipv4 l a
  · simp only [find_ipv4, PanicOr.ok.injEq]
    rw [List.find?_eq_none]
    simp [Bool.not_eq_true]

/-- C5: hash rendering is the lowercase two-digit-per-byte hexadecimal
encoding, concatenated with no separator in array order: it equals the
join of the per-byte two-digit strings (high nibble first), has length
twice the byte count, uses only lowercase hex digit characters, and
renders `[0x0a, 0xff]` as `"0aff"`.  (As a function of the byte list it
is deterministic by construction.) -/
theorem hash_rendering (bs : List Nat) (h : ∀ b ∈ bs, b < 256) :
    renderHash bs =
      String.join (bs.map (fun b => ⟨[Nat.digitChar (b / 16), Nat.digitChar (b % 16)]⟩)) ∧
    (renderHash bs).length = 2 * bs.length ∧
    (∀ c ∈ (renderHash bs).data, c ∈ hexAlphabet) ∧
    renderHash [10, 255] = "0aff" := by
  refine ⟨?_, ?_, ?_, by decide⟩
  · rw [renderHash_join]
    congr 1
    exact List.map_congr_left (fun b hb => fmt02x_byte b (h b hb))
  · have hlen : (renderHash bs).length = (renderHash bs).data.length := rfl
    rw [hlen, renderHash_data bs h]
    exact length_flatten_two
      (fun b => [Nat.digitChar (b / 16), Nat.digitChar (b % 16)]) (fun _ => rfl) bs
  · intro c hc
    rw [renderHash_data bs h] at hc
    rw [List.mem_flatten] at hc
    obtain ⟨piece, hp, hcp⟩ := hc
    rw [List.mem_map] at hp
    obtain ⟨b, hb, rfl⟩ := hp
    have hb256 := h b hb
    rcases List.mem_cons.1 hcp with rfl | hcp
    · exact digitChar_mem_hex (b / 16) (Nat.div_lt_of_lt_mul (by omega))
    · rcases List.mem_cons.1 hcp with rfl | hcp
      · exact digitChar_mem_hex (b % 16) (Nat.mod_lt _ (by omega))
      · simp at hcp

/-- Witness for the hash-rendering theorem at the byte sequence
`[0x0a, 0xff]`. -/
theorem hash_rendering_witness :
    renderHash [10, 255] =
      String.join (([10, 255] : List Nat).map
        (fun b => ⟨[Nat.digitChar (b / 16), Nat.digitChar (b % 16)]⟩)) ∧
    (renderHash [10, 255]).length = 2 * ([10, 255] : List Nat).length ∧
    (∀ c ∈ (renderHash [10, 255]).data, c ∈ hexAlphabet) ∧
    renderHash [10, 255] = "0aff" :=
  hash_rendering [10, 255] (by decide)

/-- C1 counterexample: a `getinfo` invocation whose transport
connection fails prints a one-line error message, yet the process exits
with status 0 — refuting "non-zero exit status on any failure". -/
theorem exit_zero_on_connection_failure :
    (main_run ⟨.ok (), .ok []⟩
        ⟨.ok [], .ok (), .error (.makeService "connection refused"), .ok (), .ok (), .error "x"⟩
        "http://localhost:4225" .getinfo).failed = true ∧
    (main_run ⟨.ok (), .ok []⟩
        ⟨.ok [], .ok (), .error (.makeService "connection refused"), .ok (), .ok (), .error "x"⟩
        "http://localhost:4225" .getinfo).outcome = .exited 0 :=
  ⟨rfl, rfl⟩

/-- C1 (amended): the process exits with status 1 exactly when a clap
argument validator rejects the input; it aborts with a panic exactly
when a validated `connect`/`disconnect` invocation hits a resolution
error at dispatch time; every other invocation — including
resolution-to-no-IPv4, connection, and RPC failures — exits with
status 0 just like success.  Every failing run either printed a
one-line message on the error stream or aborted with a panic. -/
theorem exit_code_characterization (pe : ParseEnv) (env : Env) (uriStr : String) (cmd : Cmd) :
    ((main_run pe env uriStr cmd).outcome = .exited 1 ↔
      ∃ e, validateCmd pe cmd = .error e) ∧
    ((∃ m, (main_run pe env uriStr cmd).outcome = .panicked m) ↔
      ((∃ u, validateCmd pe cmd = .ok u) ∧ (∃ u, env.dstResult = .ok u) ∧
       (∃ e, env.resolveDispatch = .error e) ∧
       (∃ s, cmd = .connect s ∨ cmd = .disconnect s))) ∧
    ((main_run pe env uriStr cmd).outcome = .exited 0 ∨
     (main_run pe env uriStr cmd).outcome = .exited 1 ∨
     ∃ m, (main_run pe env uriStr cmd).outcome = .panicked m) ∧
    ((main_run pe env uriStr cmd).events.any Event.isErr = true ∨
     (∃ m, (main_run pe env uriStr cmd).outcome = .panicked m) ∨
     (main_run pe env uriStr cmd).failed = false) := by
  obtain ⟨up, rv⟩ := pe
  obtain ⟨rd, dst, conn, cpr, dpr, gir⟩ := env
  cases up with
  | error e => cases cmd <;> simp [main_run, validateCmd, is_uri, dispatch, Run.failed, Event.isErr]
  | ok u =>
    cases cmd with
    | nothing => cases dst <;> simp [main_run, validateCmd, is_uri, dispatch, Run.failed, Event.isErr]
    | getinfo =>
      cases dst with
      | error e => simp [main_run, validateCmd, is_uri, dispatch, Run.failed, Event.isErr]
      | ok _ =>
        cases conn with
        | error ce =>
          simp [main_run, validateCmd, is_uri, dispatch, Run.failed, Event.isErr,
            List.any, ConnErr.render]
        | ok _ =>
          cases gir <;>
            simp [main_run, validateCmd, is_uri, dispatch, Run.failed, Event.isErr, List.any]
    | connect s =>
      cases rv with
      | error e => simp [main_run, validateCmd, is_uri, is_address, dispatch, Run.failed, Event.isErr]
      | ok rvl =>
        cases rvl with
        | nil => simp [main_run, validateCmd, is_uri, is_address, dispatch, Run.failed, Event.isErr]
        | cons a as =>
          cases dst with
          | error e => simp [main_run, validateCmd, is_uri, is_address, dispatch, Run.failed, Event.isErr]
          | ok _ =>
            cases rd with
            | error e2 =>
              simp [main_run, validateCmd, is_uri, is_address, dispatch, find_ipv4, Run.failed, Event.isErr]
            | ok rdl =>
              cases hf : rdl.find? SocketAddr.is_ipv4 with
              | none =>
                simp [main_run, validateCmd, is_uri, is_address, dispatch, find_ipv4, hf,
                  Run.failed, Event.isErr]
              | some sa =>
                cases conn with
                | error ce =>
                  simp [main_run, validateCmd, is_uri, is_address, dispatch, find_ipv4, hf,
                    Run.failed, Event.isErr, List.any]
                | ok _ =>
                  cases cpr <;>
                    simp [main_run, validateCmd, is_uri, is_address, dispatch, find_ipv4, hf,
                      Run.failed, Event.isErr, List.any]
    | disconnect s =>
      cases rv with
      | error e => simp [main_run, validateCmd, is_uri, is_address, dispatch, Run.failed, Event.isErr]
      | ok rvl =>
        cases rvl with
        | nil => simp [main_run, validateCmd, is_uri, is_address, dispatch, Run.failed, Event.isErr]
        | cons a as =>
          cases dst with
          | error e => simp [main_run, validateCmd, is_uri, is_address, dispatch, Run.failed, Event.isErr]
          | ok _ =>
            cases rd with
            | error e2 =>
              simp [main_run, validateCmd, is_uri, is_address, dispatch, find_ipv4, Run.failed, Event.isErr]
            | ok rdl =>
              cases hf : rdl.find? SocketAddr.is_ipv4 with
              | none =>
                simp [main_run, validateCmd, is_uri, is_address, dispatch, find_ipv4, hf,
                  Run.failed, Event.isErr]
              | some sa =>
                cases conn with
                | error ce =>
                  simp [main_run, validateCmd, is_uri, is_address, dispatch, find_ipv4, hf,
                    Run.failed, Event.isErr, List.any]
                | ok _ =>
                  cases dpr <;>
                    simp [main_run, validateCmd, is_uri, is_address, dispatch, find_ipv4, hf,
                      Run.failed, Event.isErr, List.any]

/-- C3: when the supplied peer address does not resolve to an IPv4
address at dispatch time (no IPv4 candidate, or a resolution error),
neither a `connect` nor a `disconnect` invocation ever reaches the
Transport Connector: no connection attempt, no RPC, nothing rendered. -/
theorem no_connection_without_ipv4 (pe : ParseEnv) (env : Env) (uriStr s : String)
    (h : find_ipv4 env.resolveDispatch = .ok none ∨
         ∃ m, find_ipv4 env.resolveDispatch = .panic m) :
    (main_run pe env uriStr (.connect s)).events.any (fun e => e.isConn || e.isRpc) = false ∧
    (main_run pe env uriStr (.connect s)).stdout = [] ∧
    (main_run pe env uriStr (.disconnect s)).events.any (fun e => e.isConn || e.isRpc) = false ∧
    (main_run pe env uriStr (.disconnect s)).stdout = [] := by
  obtain ⟨up, rv⟩ := pe
  obtain ⟨rd, dst, conn, cpr, dpr, gir⟩ := env
  cases up with
  | error e => simp [main_run, validateCmd, is_uri, Event.isConn, Event.isRpc]
  | ok u =>
    cases rv with
    | error e => simp [main_run, validateCmd, is_uri, is_address, Event.isConn, Event.isRpc]
    | ok rvl =>
      cases rvl with
      | nil => simp [main_run, validateCmd, is_uri, is_address, Event.isConn, Event.isRpc]
      | cons a as =>
        cases dst with
        | error e =>
          simp [main_run, validateCmd, is_uri, is_address, dispatch, Event.isConn, Event.isRpc]
        | ok _ =>
          rcases h with h | ⟨m, h⟩ <;>
            simp [main_run, validateCmd, is_uri, is_address, dispatch, h,
              Event.isConn, Event.isRpc]

/-- Witness for the no-connection-without-IPv4 theorem: resolution that
succeeds with an empty candidate list. -/
theorem no_connection_without_ipv4_witness :
    (main_run ⟨.ok (), .ok [⟨.v6 [0, 0, 0, 0, 0, 0, 0, 1], 4225⟩]⟩
        ⟨.ok [], .ok (), .ok (), .ok (), .ok (), .error "unused"⟩
        "http://localhost:4225" (.connect "somehost:4225")).events.any
        (fun e => e.isConn || e.isRpc) = false ∧
    (main_run ⟨.ok (), .ok [⟨.v6 [0, 0, 0, 0, 0, 0, 0, 1], 4225⟩]⟩
        ⟨.ok [], .ok (), .ok (), .ok (), .ok (), .error "unused"⟩
        "http://localhost:4225" (.connect "somehost:4225")).stdout = [] ∧
    (main_run ⟨.ok (), .ok [⟨.v6 [0, 0, 0, 0, 0, 0, 0, 1], 4225⟩]⟩
        ⟨.ok [], .ok (), .ok (), .ok (), .ok (), .error "unused"⟩
        "http://localhost:4225" (.disconnect "somehost:4225")).events.any
        (fun e => e.isConn || e.isRpc) = false ∧
    (main_run ⟨.ok (), .ok [⟨.v6 [0, 0, 0, 0, 0, 0, 0, 1], 4225⟩]⟩
        ⟨.ok [], .ok (), .ok (), .ok (), .ok (), .error "unused"⟩
        "http://localhost:4225" (.disconnect "somehost:4225")).stdout = [] :=
  no_connection_without_ipv4 _ _ _ _ (Or.inl rfl)

/-- The socket address `"127.0.0.1:4225"` resolves to. -/
def localPeerAddr : SocketAddr := { ip := .v4 ⟨127, 0, 0, 1⟩, port := 4225 }

/-- Parse-time oracle for a well-formed invocation on that address. -/
def localParseEnv : ParseEnv := { uriParse := .ok (), resolveValidate := .ok [localPeerAddr] }

/-- Dispatch-time oracle: resolution yields the loopback address, the
transport connects, and both peer RPCs acknowledge. -/
def localEnv : Env :=
  { resolveDispatch := .ok [localPeerAddr], dstResult := .ok (), connResult := .ok (),
    connectPeerResult := .ok (), disconnectPeerResult := .ok (),
    getInfoResult := .error "unused" }

/-- C4: given address `"127.0.0.1:4225"`, the `connect` (respectively
`disconnect`) invocation builds the peer payload with ip `"127.0.0.1"`
(dotted-decimal string form) and port `4225`, and issues exactly one
`ConnectPeer` (respectively `DisconnectPeer`) call carrying it. -/
theorem connect_disconnect_payload :
    main_run localParseEnv localEnv "http://localhost:4225" (.connect "127.0.0.1:4225") =
      { events := [.connAttempt, .rpcConnectPeer ⟨some ⟨"127.0.0.1", 4225⟩⟩],
        stdout := [], outcome := .exited 0 } ∧
    main_run localParseEnv localEnv "http://localhost:4225" (.disconnect "127.0.0.1:4225") =
      { events := [.connAttempt, .rpcDisconnectPeer ⟨some ⟨"127.0.0.1", 4225⟩⟩],
        stdout := [], outcome := .exited 0 } ∧
    (main_run localParseEnv localEnv "http://localhost:4225"
        (.connect "127.0.0.1:4225")).events.countP (fun e => e.isRpc) = 1 ∧
    (main_run localParseEnv localEnv "http://localhost:4225"
        (.disconnect "127.0.0.1:4225")).events.countP (fun e => e.isRpc) = 1 := by
  refine ⟨?_, ?_, by decide, by decide⟩ <;> decide

/-- C6: a syntactically invalid endpoint URI makes the `is_uri`
validator fail with the message carrying the underlying parse error,
and the whole invocation performs no connection attempt and no RPC:
clap rejects the input (exit status 1) before any network step. -/
theorem invalid_uri_rejected_locally (pe : ParseEnv) (env : Env) (uriStr : String)
    (cmd : Cmd) (e : String) (h : pe.uriParse = .error e) :
    is_uri pe.uriParse = .error ("Invalid URI: " ++ e) ∧
    (main_run pe env uriStr cmd).events.any (fun ev => ev.isConn || ev.isRpc) = false ∧
    (main_run pe env uriStr cmd).outcome = .exited 1 := by
  obtain ⟨up, rv⟩ := pe
  obtain ⟨rd, dst, conn, cpr, dpr, gir⟩ := env
  cases h
  cases cmd <;> simp [main_run, validateCmd, is_uri, Event.isConn, Event.isRpc]

/-- Witness for the invalid-URI theorem at a concrete parse error. -/
theorem invalid_uri_rejected_locally_witness :
    is_uri (ParseEnv.uriParse ⟨.error "invalid uri character", .ok []⟩) =
      .error ("Invalid URI: " ++ "invalid uri character") ∧
    (main_run ⟨.error "invalid uri character", .ok []⟩
        ⟨.ok [], .ok (), .ok (), .ok (), .ok (), .error "unused"⟩
        "ht!tp://" .getinfo).events.any (fun ev => ev.isConn || ev.isRpc) = false ∧
    (main_run ⟨.error "invalid uri character", .ok []⟩
        ⟨.ok [], .ok (), .ok (), .ok (), .ok (), .error "unused"⟩
        "ht!tp://" .getinfo).outcome = .exited 1 :=
  invalid_uri_rejected_locally _ _ _ _ "invalid uri character" rfl

/-- C7: on a `getinfo` invocation whose connection and RPC succeed, the
renderer receives exactly the four raw response fields unmodified (the
`renderInfo` event carries the response value itself), the stdout lines
are produced from that same value, and the process exits 0. -/
theorem getinfo_raw_fields_to_renderer (pe : ParseEnv) (env : Env) (uriStr : String)
    (resp : GetInfoResponse) (h1 : pe.uriParse = .ok ()) (h2 : env.dstResult = .ok ())
    (h3 : env.connResult = .ok ()) (h4 : env.getInfoResult = .ok resp) :
    (main_run pe env uriStr .getinfo).events =
      [.connAttempt, .rpcGetInfo, .renderInfo resp] ∧
    (main_run pe env uriStr .getinfo).stdout = renderInfoLines resp ∧
    (main_run pe env uriStr .getinfo).outcome = .exited 0 := by
  obtain ⟨up, rv⟩ := pe
  obtain ⟨rd, dst, conn, cpr, dpr, gir⟩ := env
  cases h1; cases h2; cases h3; cases h4
  simp [main_run, validateCmd, is_uri, dispatch]

/-- Witness for the getinfo round trip at the response
`{implementation: "node-x", protocol_version: 3,
best_block_hash: [0xde, 0xad], genesis_block_hash: [0xbe, 0xef]}`. -/
theorem getinfo_raw_fields_to_renderer_witness :
    (main_run ⟨.ok (), .ok []⟩
        ⟨.ok [], .ok (), .ok (), .ok (), .ok (), .ok ⟨"node-x", 3, [222, 173], [190, 239]⟩⟩
        "http://localhost:4225" .getinfo).events =
      [.connAttempt, .rpcGetInfo, .renderInfo ⟨"node-x", 3, [222, 173], [190, 239]⟩] ∧
    (main_run ⟨.ok (), .ok []⟩
        ⟨.ok [], .ok (), .ok (), .ok (), .ok (), .ok ⟨"node-x", 3, [222, 173], [190, 239]⟩⟩
        "http://localhost:4225" .getinfo).stdout =
      renderInfoLines ⟨"node-x", 3, [222, 173], [190, 239]⟩ ∧
    (main_run ⟨.ok (), .ok []⟩
        ⟨.ok [], .ok (), .ok (), .ok (), .ok (), .ok ⟨"node-x", 3, [222, 173], [190, 239]⟩⟩
        "http://localhost:4225" .getinfo).outcome = .exited 0 :=
  getinfo_raw_fields_to_renderer _ _ _ _ rfl rfl rfl rfl

/-- C8: every invocation is atomic: at most one connection attempt, at
most one RPC call (so nothing is retried), and an invocation that fails
renders nothing on stdout — there is no partial-success state. -/
theorem run_atomicity (pe : ParseEnv) (env : Env) (uriStr : String) (cmd : Cmd) :
    (main_run pe env uriStr cmd).atomic = true := by
  obtain ⟨up, rv⟩ := pe
  obtain ⟨rd, dst, conn, cpr, dpr, gir⟩ := env
  cases up with
  | error e => cases cmd <;> rfl
  | ok u =>
    cases cmd with
    | nothing => cases dst <;> rfl
    | getinfo =>
      cases dst with
      | error e => rfl
      | ok _ =>
        cases conn with
        | error ce => rfl
        | ok _ => cases gir <;> rfl
    | connect s =>
      cases rv with
      | error e => rfl
      | ok rvl =>
        cases rvl with
        | nil => rfl
        | cons a as =>
          cases dst with
          | error e => rfl
          | ok _ =>
            cases rd with
            | error e2 => rfl
            | ok rdl =>
              cases hf : rdl.find? SocketAddr.is_ipv4 with
              | none =>
                simp [main_run, validateCmd, is_uri, is_address, dispatch, find_ipv4, hf,
                  Run.atomic, Run.failed, Event.isErr]
                decide
              | some sa =>
                cases conn with
                | error ce =>
                  simp [main_run, validateCmd, is_uri, is_address, dispatch, find_ipv4, hf,
                    Run.atomic, Run.failed, Event.isErr, Event.isRpc, Event.isConn]
                | ok _ =>
                  cases cpr <;>
                    simp [main_run, validateCmd, is_uri, is_address, dispatch, find_ipv4, hf,
                      Run.atomic, Run.failed, Event.isErr, Event.isRpc, Event.isConn]
    | disconnect s =>
      cases rv with
      | error e => rfl
      | ok rvl =>
        cases rvl with
        | nil => rfl
        | cons a as =>
          cases dst with
          | error e => rfl
          | ok _ =>
            cases rd with
            | error e2 => rfl
            | ok rdl =>
              cases hf : rdl.find? SocketAddr.is_ipv4 with
              | none =>
                simp [main_run, validateCmd, is_uri, is_address, dispatch, find_ipv4, hf,
                  Run.atomic, Run.failed, Event.isErr]
                decide
              | some sa =>
                cases conn with
                | error ce =>
                  simp [main_run, validateCmd, is_uri, is_address, dispatch, find_ipv4, hf,
                    Run.atomic, Run.failed, Event.isErr, Event.isRpc, Event.isConn]
                | ok _ =>
                  cases dpr <;>
                    simp [main_run, validateCmd, is_uri, is_address, dispatch, find_ipv4, hf,
                      Run.atomic, Run.failed, Event.isErr, Event.isRpc, Event.isConn]

/-- C9: when `to_socket_addrs` returns an error at dispatch time,
`find_ipv4` panics on the `unwrap` instead of returning `None` or an
error value, and a validated `connect`/`disconnect` invocation aborts
with that panic. -/
theorem find_ipv4_panics_on_resolution_error (pe : ParseEnv) (env : Env)
    (uriStr s e : String) (h1 : pe.uriParse = .ok ())
    (h2 : is_address pe.resolveValidate = .ok ()) (h3 : env.dstResult = .ok ())
    (h4 : env.resolveDispatch = .error e) :
    find_ipv4 env.resolveDispatch = .panic e ∧
    (main_run pe env uriStr (.connect s)).outcome = .panicked e ∧
    (main_run pe env uriStr (.disconnect s)).outcome = .panicked e := by
  obtain ⟨up, rv⟩ := pe
  obtain ⟨rd, dst, conn, cpr, dpr, gir⟩ := env
  cases h1; cases h3; cases h4
  simp [main_run, validateCmd, is_uri, dispatch, find_ipv4, h2]

/-- Witness for the dispatch-time panic theorem: validation resolved the
host, but resolution fails when `find_ipv4` repeats it. -/
theorem find_ipv4_panics_on_resolution_error_witness :
    find_ipv4 (Env.resolveDispatch
        ⟨.error "dns failure", .ok (), .ok (), .ok (), .ok (), .error "unused"⟩) =
      .panic "dns failure" ∧
    (main_run ⟨.ok (), .ok [⟨.v4 ⟨93, 184, 216, 34⟩, 4225⟩]⟩
        ⟨.error "dns failure", .ok (), .ok (), .ok (), .ok (), .error "unused"⟩
        "http://localhost:4225" (.connect "example.com:4225")).outcome =
      .panicked "dns failure" ∧
    (main_run ⟨.ok (), .ok [⟨.v4 ⟨93, 184, 216, 34⟩, 4225⟩]⟩
        ⟨.error "dns failure", .ok (), .ok (), .ok (), .ok (), .error "unused"⟩
        "http://localhost:4225" (.disconnect "example.com:4225")).outcome =
      .panicked "dns failure" :=
  find_ipv4_panics_on_resolution_error _ _ _ _ _ rfl rfl rfl rfl

/-- C10: with a valid endpoint URI and none of the three subcommands,
the fall-through dispatcher arm is a no-op: no connection attempt, no
RPC, nothing rendered on stdout, exit status 0. -/
theorem no_subcommand_noop (pe : ParseEnv) (env : Env) (uriStr : String)
    (h : pe.uriParse = .ok ()) :
    (main_run pe env uriStr .nothing).events.any (fun ev => ev.isConn || ev.isRpc) = false ∧
    (main_run pe env uriStr .nothing).stdout = [] ∧
    (main_run pe env uriStr .nothing).outcome = .exited 0 := by
  obtain ⟨up, rv⟩ := pe
  obtain ⟨rd, dst, conn, cpr, dpr, gir⟩ := env
  cases h
  cases dst <;> simp [main_run, validateCmd, is_uri, dispatch, Event.isConn, Event.isRpc]

/-- Witness for the no-subcommand theorem. -/
theorem no_subcommand_noop_witness :
    (main_run ⟨.ok (), .ok []⟩
        ⟨.ok [], .ok (), .ok (), .ok (), .ok (), .error "unused"⟩
        "http://localhost:4225" .nothing).events.any
        (fun ev => ev.isConn || ev.isRpc) = false ∧
    (main_run ⟨.ok (), .ok []⟩
        ⟨.ok [], .ok (), .ok (), .ok (), .ok (), .error "unused"⟩
        "http://localhost:4225" .nothing).stdout = [] ∧
    (main_run ⟨.ok (), .ok []⟩
        ⟨.ok [], .ok (), .ok (), .ok (), .ok (), .error "unused"⟩
        "http://localhost:4225" .nothing).outcome = .exited 0 :=
  no_subcommand_noop _ _ _ rfl

end ArcCli
